import Mathlib

/-!
Shallow embedding of the Academic Record Service (`src/acad-service/main.py`).

The relational store is modelled as lists of rows, one list per table.
SQL inner joins are modelled with `List.flatMap` over matching rows, SQL
`ORDER BY` with `List.mergeSort`, and floating-point grade weights with
exact rationals.  Python's `round(x, 2)` (round-half-to-even) is modelled
by `round2`.  HTTP failures are `Except Nat` values carrying the status
code.

The `semester` column of `krs` is nullable in the schema, but the only
write path of this service (`create_krs`) always supplies an integer, so
rows are modelled with an integer term.  The `nilai` (grade) column is
genuinely nullable and is modelled as `Option String`.
-/

/-- Row of table `mahasiswa` (student): primary key `nim`. -/
structure Mahasiswa where
  nim : String
  nama : String
  jurusan : String
  angkatan : Int
deriving Repr, DecidableEq

/-- Row of table `mata_kuliah` (course): primary key `kode_mk`. -/
structure MataKuliah where
  kode_mk : String
  nama_mk : String
  sks : Int
deriving Repr, DecidableEq

/-- Row of table `krs` (enrollment): surrogate key `id_krs`, foreign keys
`nim`, `kode_mk` and the nullable grade `nilai`. -/
structure KRS where
  id_krs : Int
  nim : String
  kode_mk : String
  nilai : Option String
  semester : Int
deriving Repr, DecidableEq

/-- Row of table `bobot_nilai` (grade weight): primary key `nilai`. -/
structure BobotNilai where
  nilai : String
  bobot : ℚ
deriving Repr, DecidableEq

/-- The relational store: one list of rows per table. -/
structure DB where
  mahasiswa : List Mahasiswa
  mata_kuliah : List MataKuliah
  krs : List KRS
  bobot_nilai : List BobotNilai
deriving Repr, DecidableEq

/-- Request body of `POST /api/acad/calculate-ips` (`IPSRequest`). -/
structure IPSRequest where
  nim : String
  semester : Int
deriving Repr, DecidableEq

/-- Raw JSON body of `POST /api/acad/krs` before pydantic validation:
every field may be absent or null. -/
structure RawKRS where
  nim : Option String
  kode_mk : Option String
  nilai : Option String
  semester : Option Int
deriving Repr, DecidableEq

/-- Validated body of `POST /api/acad/krs` (`KRSSchema`): all four fields
are required and non-null. -/
structure KRSSchema where
  nim : String
  kode_mk : String
  nilai : String
  semester : Int
deriving Repr, DecidableEq

/-- Pydantic validation of `KRSSchema`: each of the four declared fields is
required (no default) and not `Optional`, so a missing or null field
rejects the request with 422 before the handler runs. -/
def parseKRSSchema (raw : RawKRS) : Except Nat KRSSchema :=
  match raw.nim, raw.kode_mk, raw.nilai, raw.semester with
  | some n, some k, some g, some s => Except.ok ⟨n, k, g, s⟩
  | _, _, _, _ => Except.error 422

/-- Python truthiness of an `Optional[int]`: `None` and `0` are falsy. -/
def pyTruthy : Option Int → Bool
  | none => false
  | some n => n != 0

/-- Round half to even to an integer (Python's `round` tie-breaking). -/
def roundHalfEven (q : ℚ) : ℤ :=
  let f : ℤ := ⌊q⌋
  let r : ℚ := q - (f : ℚ)
  if r < 1/2 then f
  else if 1/2 < r then f + 1
  else if f % 2 = 0 then f else f + 1

/-- Python's `round(x, 2)`: round to 2 decimal places, half to even. -/
def round2 (q : ℚ) : ℚ := (roundHalfEven (q * 100) : ℚ) / 100

/-- A denormalized row of the `get_krs` three-way join
(Enrollment ⋈ Student ⋈ Course). -/
structure KRSRow where
  id_krs : Int
  nim : String
  nama_mahasiswa : String
  kode_mk : String
  nama_mk : String
  sks : Int
  nilai : Option String
  semester : Int
deriving Repr, DecidableEq

/-- The `FROM krs JOIN mahasiswa ON krs.nim = mahasiswa.nim
JOIN mata_kuliah ON krs.kode_mk = mata_kuliah.kode_mk` join of `get_krs`. -/
def krsJoin (db : DB) : List KRSRow :=
  db.krs.flatMap fun k =>
    (db.mahasiswa.filter fun m => k.nim == m.nim).flatMap fun m =>
      (db.mata_kuliah.filter fun mk => k.kode_mk == mk.kode_mk).map fun mk =>
        ⟨k.id_krs, k.nim, m.nama, mk.kode_mk, mk.nama_mk, mk.sks, k.nilai, k.semester⟩

/-- Comparison used by `ORDER BY krs.semester, mata_kuliah.kode_mk`: a
boolean total preorder, lexicographic on `(semester, kode_mk)`. -/
def krsRowLe (a b : KRSRow) : Bool :=
  a.semester < b.semester || (a.semester == b.semester && a.kode_mk ≤ b.kode_mk)

/-- Unsorted row set of `GET /api/acad/krs/{nim}?semester=`: the three-way
join, filtered by student and — only when the `semester` parameter is truthy
(`if semester:` in Python, so `None` and `0` skip the filter) — by term. -/
def get_krs_unsorted (db : DB) (nim : String) (semester : Option Int) : List KRSRow :=
  let query := (krsJoin db).filter fun r => r.nim == nim
  if pyTruthy semester then query.filter fun r => some r.semester == semester
  else query

/-- Handler of `GET /api/acad/krs/{nim}?semester=`: the filtered join sorted
by `(semester, kode_mk)`. -/
def get_krs (db : DB) (nim : String) (semester : Option Int) : List KRSRow :=
  (get_krs_unsorted db nim semester).mergeSort krsRowLe

/-- A row of the `calculate_ips` join: the handler selects
`mata_kuliah.sks, bobot_nilai.bobot, mata_kuliah.nama_mk, krs.nilai`. -/
structure IPSRow where
  sks : Int
  bobot : ℚ
  nama_mk : String
  nilai : Option String
deriving Repr, DecidableEq

/-- The `calculate_ips` query: `krs` joined with `mata_kuliah` on the course
code and with `bobot_nilai` on the grade (SQL `krs.nilai = bobot_nilai.nilai`
never matches a NULL grade), filtered by student and term. -/
def ipsRows (db : DB) (nim : String) (semester : Int) : List IPSRow :=
  db.krs.flatMap fun k =>
    (db.mata_kuliah.filter fun mk => k.kode_mk == mk.kode_mk).flatMap fun mk =>
      (db.bobot_nilai.filter fun b => k.nilai == some b.nilai).flatMap fun b =>
        if k.nim == nim && k.semester == semester then
          [⟨mk.sks, b.bobot, mk.nama_mk, k.nilai⟩]
        else []

/-- One entry of the `details` array in the IPS response. -/
structure IPSDetail where
  mata_kuliah : String
  sks : Int
  nilai : Option String
  bobot : ℚ
  bobot_x_sks : ℚ
deriving Repr, DecidableEq

/-- The `data` payload of a successful `calculate_ips` response. -/
structure IPSResponse where
  nim : String
  nama : String
  semester : Int
  ips : ℚ
  total_sks : Int
  total_bobot : ℚ
  details : List IPSDetail
deriving Repr, DecidableEq

/-- One iteration of the accumulation loop of `calculate_ips`: the running
state is `(total_bobot, total_sks, details)`. -/
def ipsStep (acc : ℚ × Int × List IPSDetail) (r : IPSRow) : ℚ × Int × List IPSDetail :=
  let bobot_x_sks : ℚ := r.bobot * (r.sks : ℚ)
  (acc.1 + bobot_x_sks, acc.2.1 + r.sks,
   acc.2.2 ++ [⟨r.nama_mk, r.sks, r.nilai, r.bobot, round2 bobot_x_sks⟩])

/-- First `mahasiswa` row with the given `nim` (`.filter(...).first()`). -/
def findMahasiswa (db : DB) (nim : String) : Option Mahasiswa :=
  (db.mahasiswa.filter fun m => m.nim == nim).head?

/-- Student display name for the IPS response: the looked-up row's `nama`,
or the literal "Unknown" when no student row exists. -/
def resolveNama (db : DB) (nim : String) : String :=
  match findMahasiswa db nim with
  | some m => m.nama
  | none => "Unknown"

/-- Handler of `POST /api/acad/calculate-ips`: run the join; 404 on an empty
row set; otherwise accumulate unrounded `bobot * sks` and `sks`, divide with
a zero-credit guard, resolve the student name (falling back to "Unknown"),
and round `ips` and `total_bobot` to 2 decimals for the response. -/
def calculate_ips (db : DB) (request : IPSRequest) : Except Nat IPSResponse :=
  let results := ipsRows db request.nim request.semester
  if results = [] then Except.error 404
  else
    let acc := results.foldl ipsStep (0, 0, [])
    let total_bobot := acc.1
    let total_sks := acc.2.1
    let details := acc.2.2
    let ips : ℚ := if total_sks > 0 then total_bobot / (total_sks : ℚ) else 0
    let nama_mahasiswa := resolveNama db request.nim
    Except.ok ⟨request.nim, nama_mahasiswa, request.semester, round2 ips,
               total_sks, round2 total_bobot, details⟩

/-- Handler of `POST /api/acad/mahasiswa`: insert one student row.  The
store's primary-key constraint on `nim` (declared `primary_key=True`) makes
the INSERT raise on a duplicate id; the handler catches, rolls back the
transaction and returns 500, leaving the table unchanged. -/
def create_mahasiswa (db : DB) (m : Mahasiswa) : Except Nat Mahasiswa × DB :=
  if db.mahasiswa.any fun m0 => m0.nim == m.nim then (Except.error 500, db)
  else (Except.ok m, { db with mahasiswa := db.mahasiswa ++ [m] })

/-- Next value of the `id_krs` autoincrement sequence. -/
def nextKRSId (db : DB) : Int :=
  (db.krs.map KRS.id_krs).foldl max 0 + 1

/-- Handler of `POST /api/acad/krs`: pydantic validation first (422 on a
missing/null field), then an INSERT whose foreign keys on `nim`, `kode_mk`
and `nilai` are enforced by the store (violation → rollback and 500). -/
def create_krs (db : DB) (raw : RawKRS) : Except Nat KRS × DB :=
  match parseKRSSchema raw with
  | Except.error e => (Except.error e, db)
  | Except.ok krs =>
      if (db.mahasiswa.any fun m => m.nim == krs.nim) &&
         (db.mata_kuliah.any fun mk => mk.kode_mk == krs.kode_mk) &&
         (db.bobot_nilai.any fun b => b.nilai == krs.nilai) then
        let new : KRS := ⟨nextKRSId db, krs.nim, krs.kode_mk, some krs.nilai, krs.semester⟩
        (Except.ok new, { db with krs := db.krs ++ [new] })
      else (Except.error 500, db)

/-- Unrounded weighted sum `Σ bobot_i * sks_i` over a row set. -/
def wsum (rows : List IPSRow) : ℚ :=
  (rows.map fun r => r.bobot * (r.sks : ℚ)).sum

/-- Credit sum `Σ sks_i` over a row set. -/
def csum (rows : List IPSRow) : Int :=
  (rows.map IPSRow.sks).sum

/-- Detail entry built from one joined row: only its `bobot_x_sks` field is
rounded, and it is rounded from the unrounded product. -/
def ipsDetailOf (r : IPSRow) : IPSDetail :=
  ⟨r.nama_mk, r.sks, r.nilai, r.bobot, round2 (r.bobot * (r.sks : ℚ))⟩

/-- Example store from the specification: student S1, courses C1 (3 credits)
and C2 (2 credits), grades A (weight 4.0) and B (weight 3.0), both
enrollments in term 1. -/
def exDB : DB :=
  { mahasiswa := [⟨"S1", "Alice", "CS", 2023⟩],
    mata_kuliah := [⟨"C1", "Calculus", 3⟩, ⟨"C2", "Physics", 2⟩],
    krs := [⟨1, "S1", "C1", some "A", 1⟩, ⟨2, "S1", "C2", some "B", 1⟩],
    bobot_nilai := [⟨"A", 4⟩, ⟨"B", 3⟩] }

/-- Empty store. -/
def emptyDB : DB := ⟨[], [], [], []⟩

/-- Store with a single zero-credit course enrollment, exercising the
zero-credit branch of the IPS division guard. -/
def zeroCreditDB : DB :=
  { mahasiswa := [⟨"S1", "Alice", "CS", 2023⟩],
    mata_kuliah := [⟨"C0", "Seminar", 0⟩],
    krs := [⟨1, "S1", "C0", some "A", 1⟩],
    bobot_nilai := [⟨"A", 4⟩] }

/-- Store with an enrollment but no matching student row (orphaned
enrollment), exercising the "Unknown" name fallback. -/
def orphanDB : DB :=
  { mahasiswa := [],
    mata_kuliah := [⟨"C1", "Calculus", 3⟩],
    krs := [⟨1, "S1", "C1", some "A", 1⟩],
    bobot_nilai := [⟨"A", 4⟩] }

lemma ipsStep_foldl (rows : List IPSRow) (a : ℚ × Int × List IPSDetail) :
    rows.foldl ipsStep a =
      (a.1 + wsum rows, a.2.1 + csum rows, a.2.2 ++ rows.map ipsDetailOf) := by
  induction rows generalizing a with
  | nil => simp [wsum, csum]
  | cons r rs ih =>
      simp [List.foldl_cons, ih, ipsStep, wsum, csum, ipsDetailOf, add_assoc]

lemma calculate_ips_ok (db : DB) (req : IPSRequest)
    (h : ¬ ipsRows db req.nim req.semester = []) :
    calculate_ips db req =
      Except.ok ⟨req.nim, resolveNama db req.nim, req.semester,
        round2 (if 0 < csum (ipsRows db req.nim req.semester) then
                  wsum (ipsRows db req.nim req.semester) /
                    (csum (ipsRows db req.nim req.semester) : ℚ)
                else 0),
        csum (ipsRows db req.nim req.semester),
        round2 (wsum (ipsRows db req.nim req.semester)),
        (ipsRows db req.nim req.semester).map ipsDetailOf⟩ := by
  simp only [calculate_ips, if_neg h, ipsStep_foldl, zero_add, List.nil_append,
    gt_iff_lt]

lemma wsum_perm {rows1 rows2 : List IPSRow} (p : rows1.Perm rows2) :
    wsum rows1 = wsum rows2 := by
  unfold wsum
  exact (p.map _).sum_eq

lemma csum_perm {rows1 rows2 : List IPSRow} (p : rows1.Perm rows2) :
    csum rows1 = csum rows2 := by
  unfold csum
  exact (p.map _).sum_eq

lemma csum_pos {rows : List IPSRow} (hne : rows ≠ [])
    (hpos : ∀ r ∈ rows, 0 < r.sks) : 0 < csum rows := by
  apply List.sum_pos
  · intro a ha
    obtain ⟨r, hr, rfl⟩ := List.mem_map.mp ha
    exact hpos r hr
  · simpa using hne

/-- C1: for every (student, term) whose IPS join is non-empty (every
enrollment with a resolvable grade contributes one row) and whose joined
courses all have positive credits, `calculate_ips` succeeds and returns
`ips = round2 (Σ (weight_i * credits_i) / Σ credits_i)` exactly, and the
`ips`, `total_sks` and `total_bobot` fields are invariant under any
reordering of the joined rows. -/
theorem ips_weighted_average_of_rows (db : DB) (nim : String) (sem : Int)
    (hne : ipsRows db nim sem ≠ [])
    (hpos : ∀ r ∈ ipsRows db nim sem, 0 < r.sks) :
    ∃ resp, calculate_ips db ⟨nim, sem⟩ = Except.ok resp ∧
      resp.ips = round2 (wsum (ipsRows db nim sem) / (csum (ipsRows db nim sem) : ℚ)) ∧
      ∀ (db2 : DB) (resp2 : IPSResponse),
        (ipsRows db2 nim sem).Perm (ipsRows db nim sem) →
        calculate_ips db2 ⟨nim, sem⟩ = Except.ok resp2 →
        resp2.ips = resp.ips ∧ resp2.total_sks = resp.total_sks ∧
          resp2.total_bobot = resp.total_bobot := by
  have hc : 0 < csum (ipsRows db nim sem) := csum_pos hne hpos
  refine ⟨_, calculate_ips_ok db ⟨nim, sem⟩ hne, ?_, ?_⟩
  · simp [if_pos hc]
  · intro db2 resp2 p heq2
    have hne2 : ¬ ipsRows db2 nim sem = [] := by
      intro h0
      exact hne (List.Perm.nil_eq (h0 ▸ p)).symm
    rw [calculate_ips_ok db2 ⟨nim, sem⟩ hne2] at heq2
    have hresp2 := (Except.ok.injEq _ _).mp heq2.symm
    subst hresp2
    simp [wsum_perm p, csum_perm p]

/-- C1 witness: the spec's worked example (3 credits at weight 4 and
2 credits at weight 3 in term 1) instantiates the theorem. -/
theorem ips_weighted_average_of_rows_witness :
    (ipsRows exDB "S1" 1 ≠ []) ∧ (∀ r ∈ ipsRows exDB "S1" 1, 0 < r.sks) ∧
    (∃ resp, calculate_ips exDB ⟨"S1", 1⟩ = Except.ok resp ∧
      resp.ips = round2 (wsum (ipsRows exDB "S1" 1) / (csum (ipsRows exDB "S1" 1) : ℚ)) ∧
      ∀ (db2 : DB) (resp2 : IPSResponse),
        (ipsRows db2 "S1" 1).Perm (ipsRows exDB "S1" 1) →
        calculate_ips db2 ⟨"S1", 1⟩ = Except.ok resp2 →
        resp2.ips = resp.ips ∧ resp2.total_sks = resp.total_sks ∧
          resp2.total_bobot = resp.total_bobot) :=
  ⟨by decide, by decide,
   ips_weighted_average_of_rows exDB "S1" 1 (by decide) (by decide)⟩

/-- C2: whenever the IPS join yields no rows for the requested (student,
term), `calculate_ips` fails with HTTP 404 and returns no payload. -/
theorem ips_empty_join_not_found (db : DB) (nim : String) (sem : Int)
    (h : ipsRows db nim sem = []) :
    calculate_ips db ⟨nim, sem⟩ = Except.error 404 := by
  simp only [calculate_ips, if_pos h]

/-- C2 witness: the empty store has no rows for (S1, 1), so the request
fails with 404. -/
theorem ips_empty_join_not_found_witness :
    ipsRows emptyDB "S1" 1 = [] ∧
      calculate_ips emptyDB ⟨"S1", 1⟩ = Except.error 404 :=
  ⟨by decide, ips_empty_join_not_found emptyDB "S1" 1 (by decide)⟩

/-- C3: on a non-empty row set, `total_bobot` is the rounding of the sum of
the unrounded per-row products, `ips` is the rounding of the quotient of the
unrounded sums, and each detail's `bobot_x_sks` is independently the
rounding of that row's unrounded product — no rounded value feeds any
sum. -/
theorem ips_rounding_discipline (db : DB) (nim : String) (sem : Int)
    (hne : ipsRows db nim sem ≠ []) :
    ∃ resp, calculate_ips db ⟨nim, sem⟩ = Except.ok resp ∧
      resp.total_bobot = round2 (wsum (ipsRows db nim sem)) ∧
      resp.ips = round2 (if 0 < csum (ipsRows db nim sem) then
          wsum (ipsRows db nim sem) / (csum (ipsRows db nim sem) : ℚ) else 0) ∧
      resp.details = (ipsRows db nim sem).map ipsDetailOf := by
  exact ⟨_, calculate_ips_ok db ⟨nim, sem⟩ hne, rfl, rfl, rfl⟩

/-- C3 witness: the spec's worked example instantiates the rounding
discipline theorem. -/
theorem ips_rounding_discipline_witness :
    ipsRows exDB "S1" 1 ≠ [] ∧
    ∃ resp, calculate_ips exDB ⟨"S1", 1⟩ = Except.ok resp ∧
      resp.total_bobot = round2 (wsum (ipsRows exDB "S1" 1)) ∧
      resp.ips = round2 (if 0 < csum (ipsRows exDB "S1" 1) then
          wsum (ipsRows exDB "S1" 1) / (csum (ipsRows exDB "S1" 1) : ℚ) else 0) ∧
      resp.details = (ipsRows exDB "S1" 1).map ipsDetailOf :=
  ⟨by decide, ips_rounding_discipline exDB "S1" 1 (by decide)⟩

lemma krsRowLe_trans (a b c : KRSRow) (hab : krsRowLe a b = true)
    (hbc : krsRowLe b c = true) : krsRowLe a c = true := by
  simp only [krsRowLe, Bool.or_eq_true, Bool.and_eq_true, decide_eq_true_eq,
    beq_iff_eq] at hab hbc ⊢
  rcases hab with h1 | ⟨h1, h1'⟩ <;> rcases hbc with h2 | ⟨h2, h2'⟩
  · exact Or.inl (lt_trans h1 h2)
  · exact Or.inl (h2 ▸ h1)
  · exact Or.inl (h1 ▸ h2)
  · exact Or.inr ⟨h1.trans h2, le_trans h1' h2'⟩

lemma krsRowLe_total (a b : KRSRow) : (krsRowLe a b || krsRowLe b a) = true := by
  simp only [krsRowLe, Bool.or_eq_true, Bool.and_eq_true, decide_eq_true_eq,
    beq_iff_eq]
  rcases lt_trichotomy a.semester b.semester with h | h | h
  · exact Or.inl (Or.inl h)
  · rcases le_total a.kode_mk b.kode_mk with h' | h'
    · exact Or.inl (Or.inr ⟨h, h'⟩)
    · exact Or.inr (Or.inr ⟨h.symm, h'⟩)
  · exact Or.inr (Or.inl h)

/-- C4: for every student and optional term argument, `get_krs` returns a
list that is sorted primarily by term ascending and secondarily by course
code ascending, is a permutation of the filtered join rows, and — for every
insertion order of the underlying `krs` table — the same multiset of
rows. -/
theorem get_krs_sorted_by_term_then_code (db : DB) (nim : String)
    (semester : Option Int) :
    (get_krs db nim semester).Pairwise (fun a b => krsRowLe a b = true) ∧
    (get_krs db nim semester).Perm (get_krs_unsorted db nim semester) ∧
    ∀ db2 : DB, db2.mahasiswa = db.mahasiswa → db2.mata_kuliah = db.mata_kuliah →
      db2.krs.Perm db.krs →
      (get_krs db2 nim semester).Perm (get_krs db nim semester) := by
  refine ⟨List.sorted_mergeSort krsRowLe_trans krsRowLe_total _,
    List.mergeSort_perm _ _, ?_⟩
  intro db2 hm hmk hp
  have hjoin : (krsJoin db2).Perm (krsJoin db) := by
    unfold krsJoin
    rw [hm, hmk]
    exact hp.flatMap_right _
  have hq : (get_krs_unsorted db2 nim semester).Perm
      (get_krs_unsorted db nim semester) := by
    unfold get_krs_unsorted
    cases hpt : pyTruthy semester with
    | false => simpa [hpt] using hjoin.filter _
    | true => simpa [hpt] using (hjoin.filter _).filter _
  exact ((List.mergeSort_perm _ _).trans hq).trans
    (List.mergeSort_perm _ _).symm

/-- C4 witness: the example store instantiates the ordering theorem. -/
theorem get_krs_sorted_by_term_then_code_witness :
    (get_krs exDB "S1" none).Pairwise (fun a b => krsRowLe a b = true) ∧
    (get_krs exDB "S1" none).Perm (get_krs_unsorted exDB "S1" none) ∧
    ∀ db2 : DB, db2.mahasiswa = exDB.mahasiswa →
      db2.mata_kuliah = exDB.mata_kuliah → db2.krs.Perm exDB.krs →
      (get_krs db2 "S1" none).Perm (get_krs exDB "S1" none) :=
  get_krs_sorted_by_term_then_code exDB "S1" none

/-- C5 counterexample: with the example store (whose enrollments are all in
term 1), requesting term 0 does not return only term-0 rows (which would be
none): the term filter is skipped because `0` is falsy in Python, and both
term-1 rows come back. -/
theorem get_krs_zero_term_filter_cex :
    get_krs exDB "S1" (some 0) ≠ [] ∧
    ∀ r ∈ get_krs exDB "S1" (some 0), r.semester ≠ 0 := by
  constructor
  · intro h
    have hlen := congrArg List.length h
    simp only [get_krs, List.length_mergeSort, List.length_nil] at hlen
    revert hlen
    decide
  · have hu : ∀ r ∈ get_krs_unsorted exDB "S1" (some 0), r.semester ≠ 0 := by
      decide
    intro r hr
    simp only [get_krs] at hr
    exact hu r (List.mem_mergeSort.mp hr)

/-- C5 amended: the term filter is applied whenever the supplied term is
truthy, i.e. non-null and nonzero; for every nonzero term `t`, `get_krs`
returns exactly the student's joined rows whose term equals `t` (as a sorted
permutation), and every returned row has term `t`.  A supplied term of `0`
is treated as absent and the filter is skipped. -/
theorem get_krs_term_filter_when_nonzero (db : DB) (nim : String) (t : Int)
    (ht : t ≠ 0) :
    (get_krs db nim (some t)).Perm
      (((krsJoin db).filter fun r => r.nim == nim).filter
        fun r => r.semester == t) ∧
    ∀ r ∈ get_krs db nim (some t), r.semester = t := by
  have htruthy : pyTruthy (some t) = true := by
    simp [pyTruthy, ht]
  have hunsorted : get_krs_unsorted db nim (some t) =
      ((krsJoin db).filter fun r => r.nim == nim).filter
        fun r => r.semester == t := by
    simp only [get_krs_unsorted, htruthy, if_true]
    exact List.filter_congr fun a _ => by simp
  constructor
  · rw [get_krs, hunsorted]
    exact List.mergeSort_perm _ _
  · intro r hr
    simp only [get_krs] at hr
    have := List.mem_mergeSort.mp hr
    rw [hunsorted] at this
    simpa using (List.mem_filter.mp this).2

/-- C5 amended witness: for the nonzero term 1 on the example store the
filter is applied and both term-1 rows are returned. -/
theorem get_krs_term_filter_when_nonzero_witness :
    (1 : Int) ≠ 0 ∧
    ((get_krs exDB "S1" (some 1)).Perm
      (((krsJoin exDB).filter fun r => r.nim == "S1").filter
        fun r => r.semester == 1) ∧
     ∀ r ∈ get_krs exDB "S1" (some 1), r.semester = 1) :=
  ⟨by decide, get_krs_term_filter_when_nonzero exDB "S1" 1 (by decide)⟩

lemma ipsRows_append_unmatched (db : DB) (k : KRS)
    (hg : ∀ b ∈ db.bobot_nilai, k.nilai ≠ some b.nilai) (nim : String)
    (sem : Int) :
    ipsRows { db with krs := db.krs ++ [k] } nim sem = ipsRows db nim sem := by
  have hb : db.bobot_nilai.filter (fun b => k.nilai == some b.nilai) = [] := by
    rw [List.filter_eq_nil_iff]
    intro b hbmem
    simpa using hg b hbmem
  simp [ipsRows, List.flatMap_append, hb]

/-- C6: an enrollment whose grade is null or matches no grade-weight row is
invisible to `calculate_ips` — appending it to the store changes no IPS
response for any request — yet (its student and course rows existing) it
still appears in the `get_krs` listing for its student. -/
theorem unresolvable_grade_excluded_from_ips (db : DB) (k : KRS)
    (hg : ∀ b ∈ db.bobot_nilai, k.nilai ≠ some b.nilai)
    (hm : ∃ m ∈ db.mahasiswa, k.nim = m.nim)
    (hc : ∃ mk ∈ db.mata_kuliah, k.kode_mk = mk.kode_mk) :
    (∀ req : IPSRequest,
      calculate_ips { db with krs := db.krs ++ [k] } req = calculate_ips db req) ∧
    ∃ r ∈ get_krs { db with krs := db.krs ++ [k] } k.nim none,
      r.id_krs = k.id_krs ∧ r.nilai = k.nilai ∧ r.semester = k.semester := by
  constructor
  · intro req
    simp only [calculate_ips, ipsRows_append_unmatched db k hg, resolveNama,
      findMahasiswa]
  · obtain ⟨m, hmin, hmnim⟩ := hm
    obtain ⟨mk, hmkin, hmkcode⟩ := hc
    refine ⟨⟨k.id_krs, k.nim, m.nama, mk.kode_mk, mk.nama_mk, mk.sks,
      k.nilai, k.semester⟩, ?_, rfl, rfl, rfl⟩
    rw [get_krs]
    apply List.mem_mergeSort.mpr
    simp only [get_krs_unsorted, pyTruthy, Bool.false_eq_true, if_false]
    apply List.mem_filter.mpr
    refine ⟨?_, by simp⟩
    apply List.mem_flatMap.mpr
    refine ⟨k, by simp, ?_⟩
    apply List.mem_flatMap.mpr
    refine ⟨m, List.mem_filter.mpr ⟨hmin, by simp [hmnim]⟩, ?_⟩
    apply List.mem_map.mpr
    exact ⟨mk, List.mem_filter.mpr ⟨hmkin, by simp [hmkcode]⟩, rfl⟩

/-- C6 witness: a null-grade enrollment of S1 in course C1 added to the
example store changes no IPS response and still shows up in S1's listing. -/
theorem unresolvable_grade_excluded_from_ips_witness :
    (∀ b ∈ exDB.bobot_nilai,
      (KRS.mk 3 "S1" "C1" none 1).nilai ≠ some b.nilai) ∧
    (∃ m ∈ exDB.mahasiswa, (KRS.mk 3 "S1" "C1" none 1).nim = m.nim) ∧
    (∃ mk ∈ exDB.mata_kuliah, (KRS.mk 3 "S1" "C1" none 1).kode_mk = mk.kode_mk) ∧
    ((∀ req : IPSRequest,
      calculate_ips { exDB with krs := exDB.krs ++ [KRS.mk 3 "S1" "C1" none 1] } req =
        calculate_ips exDB req) ∧
    ∃ r ∈ get_krs { exDB with krs := exDB.krs ++ [KRS.mk 3 "S1" "C1" none 1] }
        (KRS.mk 3 "S1" "C1" none 1).nim none,
      r.id_krs = (KRS.mk 3 "S1" "C1" none 1).id_krs ∧
      r.nilai = (KRS.mk 3 "S1" "C1" none 1).nilai ∧
      r.semester = (KRS.mk 3 "S1" "C1" none 1).semester) :=
  ⟨by decide, by decide, by decide,
   unresolvable_grade_excluded_from_ips exDB (KRS.mk 3 "S1" "C1" none 1)
     (by decide) (by decide) (by decide)⟩

/-- C7: creating a student whose id already exists fails with an error and
returns the store unchanged: the existing row is not overwritten, no second
row with that id is added, and the student collection is exactly as it was
before the call. -/
theorem create_mahasiswa_duplicate_conflict (db : DB) (m : Mahasiswa)
    (h : ∃ m0 ∈ db.mahasiswa, m0.nim = m.nim) :
    create_mahasiswa db m = (Except.error 500, db) := by
  obtain ⟨m0, hmem, hnim⟩ := h
  have hany : (db.mahasiswa.any fun m0 => m0.nim == m.nim) = true :=
    List.any_eq_true.mpr ⟨m0, hmem, by simp [hnim]⟩
  simp [create_mahasiswa, hany]

/-- C7 witness: re-registering id S1 on the example store fails and leaves
the store untouched. -/
theorem create_mahasiswa_duplicate_conflict_witness :
    (∃ m0 ∈ exDB.mahasiswa, m0.nim = (Mahasiswa.mk "S1" "Bob" "EE" 2024).nim) ∧
    create_mahasiswa exDB (Mahasiswa.mk "S1" "Bob" "EE" 2024) =
      (Except.error 500, exDB) :=
  ⟨by decide,
   create_mahasiswa_duplicate_conflict exDB (Mahasiswa.mk "S1" "Bob" "EE" 2024)
     (by decide)⟩

lemma round2_zero : round2 0 = 0 := by
  norm_num [round2, roundHalfEven]

/-- C8: on a non-empty row set, if the credit total is zero the guarded
division returns `ips = 0` instead of failing (the handler is a total
function), and the zero branch is unreachable whenever every joined course
has positive credits. -/
theorem ips_zero_credit_guard (db : DB) (nim : String) (sem : Int)
    (hne : ipsRows db nim sem ≠ []) :
    (csum (ipsRows db nim sem) = 0 →
      ∃ resp, calculate_ips db ⟨nim, sem⟩ = Except.ok resp ∧ resp.ips = 0) ∧
    ((∀ r ∈ ipsRows db nim sem, 0 < r.sks) → 0 < csum (ipsRows db nim sem)) := by
  constructor
  · intro hz
    refine ⟨_, calculate_ips_ok db ⟨nim, sem⟩ hne, ?_⟩
    simp [hz, round2_zero]
  · intro hpos
    exact csum_pos hne hpos

/-- C8 witness: a single zero-credit enrollment reaches the zero branch and
yields `ips = 0` without error. -/
theorem ips_zero_credit_guard_witness :
    ipsRows zeroCreditDB "S1" 1 ≠ [] ∧ csum (ipsRows zeroCreditDB "S1" 1) = 0 ∧
    ∃ resp, calculate_ips zeroCreditDB ⟨"S1", 1⟩ = Except.ok resp ∧
      resp.ips = 0 :=
  ⟨by decide, by decide,
   (ips_zero_credit_guard zeroCreditDB "S1" 1 (by decide)).1 (by decide)⟩

/-- C9: when the joined row set is non-empty but no student row with the
requested id exists, `calculate_ips` still succeeds, substitutes the literal
"Unknown" for the display name, and computes every other field as usual. -/
theorem ips_missing_student_unknown (db : DB) (nim : String) (sem : Int)
    (hne : ipsRows db nim sem ≠ [])
    (hns : ∀ m ∈ db.mahasiswa, m.nim ≠ nim) :
    ∃ resp, calculate_ips db ⟨nim, sem⟩ = Except.ok resp ∧
      resp.nama = "Unknown" ∧ resp.nim = nim ∧ resp.semester = sem ∧
      resp.ips = round2 (if 0 < csum (ipsRows db nim sem) then
        wsum (ipsRows db nim sem) / (csum (ipsRows db nim sem) : ℚ) else 0) ∧
      resp.total_sks = csum (ipsRows db nim sem) ∧
      resp.total_bobot = round2 (wsum (ipsRows db nim sem)) ∧
      resp.details = (ipsRows db nim sem).map ipsDetailOf := by
  have hfil : db.mahasiswa.filter (fun m => m.nim == nim) = [] :=
    List.filter_eq_nil_iff.mpr fun m hm => by simp [hns m hm]
  refine ⟨_, calculate_ips_ok db ⟨nim, sem⟩ hne, ?_, rfl, rfl, rfl, rfl, rfl, rfl⟩
  simp [resolveNama, findMahasiswa, hfil]

/-- C9 witness: an orphaned enrollment (no student row) still produces a
successful IPS response naming "Unknown". -/
theorem ips_missing_student_unknown_witness :
    ipsRows orphanDB "S1" 1 ≠ [] ∧ (∀ m ∈ orphanDB.mahasiswa, m.nim ≠ "S1") ∧
    ∃ resp, calculate_ips orphanDB ⟨"S1", 1⟩ = Except.ok resp ∧
      resp.nama = "Unknown" ∧ resp.nim = "S1" ∧ resp.semester = 1 ∧
      resp.ips = round2 (if 0 < csum (ipsRows orphanDB "S1" 1) then
        wsum (ipsRows orphanDB "S1" 1) / (csum (ipsRows orphanDB "S1" 1) : ℚ) else 0) ∧
      resp.total_sks = csum (ipsRows orphanDB "S1" 1) ∧
      resp.total_bobot = round2 (wsum (ipsRows orphanDB "S1" 1)) ∧
      resp.details = (ipsRows orphanDB "S1" 1).map ipsDetailOf :=
  ⟨by decide, by decide,
   ips_missing_student_unknown orphanDB "S1" 1 (by decide) (by decide)⟩

/-- C10: the grade field of a create-enrollment request is required and
non-null — a body with the grade absent or null is rejected by validation
with the store untouched — and every row this endpoint does insert carries a
non-null grade. -/
theorem create_krs_grade_required (db : DB) (raw : RawKRS) :
    (raw.nilai = none → create_krs db raw = (Except.error 422, db)) ∧
    (∀ res newdb, create_krs db raw = (Except.ok res, newdb) →
      newdb.krs = db.krs ++ [res] ∧ ∃ s, res.nilai = some s) := by
  constructor
  · intro h
    obtain ⟨a, b, c, d⟩ := raw
    simp only at h
    subst h
    cases a <;> cases b <;> cases d <;> simp [create_krs, parseKRSSchema]
  · intro res newdb h
    cases hp : parseKRSSchema raw with
    | error e =>
        simp only [create_krs, hp] at h
        exact absurd (congrArg Prod.fst h) (by simp)
    | ok krs =>
        simp only [create_krs, hp] at h
        split at h
        · simp only [Prod.mk.injEq, Except.ok.injEq] at h
          obtain ⟨h1, h2⟩ := h
          subst h1
          subst h2
          exact ⟨rfl, krs.nilai, rfl⟩
        · simp at h

/-- C10 witness: a body with a null grade is rejected with 422 and no row is
inserted, instantiated on the example store. -/
theorem create_krs_grade_required_witness :
    ((RawKRS.mk (some "S1") (some "C1") none (some 1)).nilai = none →
      create_krs exDB (RawKRS.mk (some "S1") (some "C1") none (some 1)) =
        (Except.error 422, exDB)) ∧
    (∀ res newdb,
      create_krs exDB (RawKRS.mk (some "S1") (some "C1") none (some 1)) =
        (Except.ok res, newdb) →
      newdb.krs = exDB.krs ++ [res] ∧ ∃ s, res.nilai = some s) :=
  create_krs_grade_required exDB (RawKRS.mk (some "S1") (some "C1") none (some 1))
